import Mathlib

/-!
hypermind: NeuralReactor handlers, metrics and the event-loop tick.

A shallow embedding of `hypermind.hpp`.  The reactor is a record of its C++
members, and every member function is a function from reactor states to
reactor states.

Conventions of the embedding:

* pointers (`Message*`, `Command*`, `Event*`, `NDArray*`) are natural-number
  handles; a queue is the list of the handles it holds, next item first;
* `long long` counters are integers and `x++` is the 64-bit two's-complement
  successor (`incr_long_long`);
* `double average_latency_ms` is kept as its 64-bit pattern, no arithmetic is
  done on it;
* a C++ call either returns or leaves by an exception; `catch (const
  std::exception&)` catches only exceptions derived from `std::exception`;
* `handle_error` has a body of comments only, so it has no effect on the C++
  members; to state which errors were passed to it the reactor record carries
  a history field `handled_errors` that `handle_error` (and nothing else)
  appends to.
-/

namespace Hypermind

/-! ## Scalars -/

/-- Pointer values: handles of heap objects the reactor does not look into. -/
abbrev Ptr := Nat

/-- Key type of the session and NDArray tables. -/
abbrev hash_t := Nat

/-- Largest value of a C++ `long long`. -/
def LLONG_MAX : Int := 2 ^ 63 - 1

/-- Smallest value of a C++ `long long`. -/
def LLONG_MIN : Int := -(2 ^ 63)

/-- The effect of `x++` on a `long long`: successor in 64-bit two's complement. -/
def incr_long_long (x : Int) : Int :=
  (x + 1 - LLONG_MIN) % 2 ^ 64 + LLONG_MIN

/-! ## Error handling types -/

/-- Source enum `ErrorSeverity`. -/
inductive ErrorSeverity where
  | WARNING
  | ERROR
  | CRITICAL
deriving DecidableEq, Repr

/-- Source struct `IntegrationError`. -/
structure IntegrationError where
  severity : ErrorSeverity
  message : String
  source : String
  error_code : Int
deriving DecidableEq, Repr

/-! ## GPU integration -/

/-- Source enum `GPUOperationType`. -/
inductive GPUOperationType where
  | MatrixMultiply
  | Activation
  | Gradient
  | MemoryCopy
deriving DecidableEq, Repr

/-- Source struct `GPUOperation`. -/
structure GPUOperation where
  type : GPUOperationType
  operation_id : Int
  input_ptr : Ptr
  output_ptr : Ptr
  size : Nat
deriving DecidableEq, Repr

/-- Source struct `GPUResult`. -/
structure GPUResult where
  operation_id : Int
  success : Bool
  error : IntegrationError
deriving DecidableEq, Repr

/-! ## Database integration -/

/-- Source enum `DatabaseQueryType`. -/
inductive DatabaseQueryType where
  | INSERT
  | UPDATE
  | SELECT_QUERY
  | DELETE_QUERY
  | BATCH_INSERT
deriving DecidableEq, Repr

/-- Source struct `DatabaseQuery`. -/
structure DatabaseQuery where
  type : DatabaseQueryType
  query_id : Int
  sql : String
  parameters : List String
deriving DecidableEq, Repr

/-- Source struct `DatabaseResult`. -/
structure DatabaseResult where
  query_id : Int
  success : Bool
  rows_affected : Int
  error : IntegrationError
deriving DecidableEq, Repr

/-! ## Performance monitoring -/

/-- Source struct `PerformanceMetrics`.  `average_latency_ms` is the bit
pattern of the `double`. -/
structure PerformanceMetrics where
  total_operations : Int
  successful_operations : Int
  failed_operations : Int
  average_latency_ms : Nat
  gpu_memory_used : Int
  active_sessions : Int
deriving DecidableEq, Repr

/-- The accounting equation of the metrics record. -/
def accounted (m : PerformanceMetrics) : Prop :=
  m.total_operations = m.successful_operations + m.failed_operations

instance (m : PerformanceMetrics) : Decidable (accounted m) := by
  unfold accounted
  exact inferInstance

/-! ## The actor base class -/

/-- Modelled from the spec: `ThreadActor`, the base class of `NeuralReactor`,
is declared outside `hypermind.hpp`.  It holds the members that `run` reads
without declaring them (`_get_queue`, `_cmd_queue`, `_gpu_queue`,
`_gpu_queue_empty`) and the database pipe that the class comment of
`NeuralReactor` lists as the fourth input source. -/
structure ThreadActor where
  _get_queue : List Ptr
  _cmd_queue : List Ptr
  _gpu_queue : List Ptr
  _gpu_queue_empty : Bool
  _db_pipe : List Ptr
deriving DecidableEq, Repr

/-- Modelled from the spec: `queue.empty()` of the queue type declared outside
the file. -/
def queue_empty (q : List Ptr) : Bool :=
  q.isEmpty

/-- Modelled from the spec: `queue.get(no_wait)` of the queue type declared
outside the file.  Non-blocking: it hands out the next item and removes it, or
hands out the null pointer and leaves an empty queue as it is. -/
def queue_get (q : List Ptr) : Option Ptr × List Ptr :=
  match q with
  | [] => (none, [])
  | x :: rest => (some x, rest)

/-! ## Commands -/

/-- How a call of `Command::execute` ends.  The command receives the reactor
through a `NeuralReactor*`, whose own members are all private, so what it can
change is the `ThreadActor` part; `a` is that part when the call ends. -/
inductive Completion where
  | returned (a : ThreadActor)
  | threw (a : ThreadActor) (what : String)
  | threw_other (a : ThreadActor)

/-- Source class `Command`: the successor list and the virtual `execute`.
`threw a what` is an exception derived from `std::exception` whose `what()` is
`what`; `threw_other a` is a thrown object of any other type. -/
structure Command where
  _next : List Ptr
  execute : ThreadActor → Completion

/-- Source class `BackPropagation`: the body of `execute` holds comments only. -/
def BackPropagation (next : List Ptr) : Command :=
  { _next := next, execute := fun a => Completion.returned a }

/-- Source class `WeightUpdate`: the body of `execute` holds comments only. -/
def WeightUpdate (next : List Ptr) : Command :=
  { _next := next, execute := fun a => Completion.returned a }

/-- Source class `GradientComputation`: the body of `execute` holds comments only. -/
def GradientComputation (next : List Ptr) : Command :=
  { _next := next, execute := fun a => Completion.returned a }

/-! ## Sessions -/

/-- Source class `SessionState`. -/
structure SessionState where
  _state : Int
deriving DecidableEq, Repr

/-- Source `SessionState::getState`. -/
def SessionState.getState (ss : SessionState) : Int :=
  ss._state

/-- Modelled from the spec: the four session states.  The source stores a bare
`int _state` and names no constants. -/
inductive SessionStatus where
  | Initiated
  | Active
  | Completed
  | Aborted
deriving DecidableEq, Repr

/-- Modelled from the spec: the numeric code of a session state, numbered in
the order the spec lists the states. -/
def SessionStatus.code : SessionStatus → Int
  | SessionStatus.Initiated => 0
  | SessionStatus.Active => 1
  | SessionStatus.Completed => 2
  | SessionStatus.Aborted => 3

/-! ## The reactor -/

/-- Source class `NeuralReactor`: the inherited actor part, the two tables and
the metrics.  `handled_errors` is the history of the arguments of
`handle_error`, oldest first. -/
structure NeuralReactor extends ThreadActor where
  _session_map : List (hash_t × SessionState)
  _ndarray_map : List (hash_t × Ptr)
  _metrics : PerformanceMetrics
  handled_errors : List IntegrationError
deriving DecidableEq, Repr

/-- How a call of a reactor member function ends: it returns, or an exception
leaves it towards the caller. -/
inductive CallResult where
  | returned (r : NeuralReactor)
  | propagated (r : NeuralReactor)
deriving DecidableEq, Repr

/-- The reactor as a call leaves it, whether the call returned or an exception
left it. -/
def CallResult.reactor : CallResult → NeuralReactor
  | CallResult.returned r => r
  | CallResult.propagated r => r

/-- Source `NeuralReactor::handle_error`.  The body is three comments and an
empty `if (error.severity == CRITICAL)` block; the call is recorded in
`handled_errors`. -/
def handle_error (s : NeuralReactor) (error : IntegrationError) : NeuralReactor :=
  let s1 := { s with handled_errors := s.handled_errors ++ [error] }
  if error.severity = ErrorSeverity.CRITICAL then s1 else s1

/-- Source `NeuralReactor::handle_command`. -/
def handle_command (s : NeuralReactor) (cmd : Command) : CallResult :=
  match cmd.execute s.toThreadActor with
  | Completion.returned a =>
      CallResult.returned
        { s with
          toThreadActor := a
          _metrics := { s._metrics with
            successful_operations := incr_long_long s._metrics.successful_operations } }
  | Completion.threw a what =>
      CallResult.returned
        (handle_error
          { s with
            toThreadActor := a
            _metrics := { s._metrics with
              failed_operations := incr_long_long s._metrics.failed_operations } }
          { severity := ErrorSeverity.ERROR, message := what, source := "Command",
            error_code := -1 })
  | Completion.threw_other a =>
      CallResult.propagated { s with toThreadActor := a }

/-- Source class `Event`, declared outside the file: `getData()` hands out the
payload, here already at the type the handler casts it to. -/
structure Event (α : Type) where
  getData : α

/-- Source `NeuralReactor::handle_gpu_event`. -/
def handle_gpu_event (s : NeuralReactor) (event : Event GPUResult) : NeuralReactor :=
  let result := event.getData
  if !result.success then handle_error s result.error else s

/-- Source `NeuralReactor::handle_database_event`. -/
def handle_database_event (s : NeuralReactor) (event : Event DatabaseResult) :
    NeuralReactor :=
  let result := event.getData
  if !result.success then handle_error s result.error else s

/-- Source `NeuralReactor::submit_gpu_operation`: the body holds comments only. -/
def submit_gpu_operation (s : NeuralReactor) (_op : GPUOperation) : NeuralReactor :=
  s

/-- Source `NeuralReactor::submit_database_query`: the body holds comments only. -/
def submit_database_query (s : NeuralReactor) (_query : DatabaseQuery) : NeuralReactor :=
  s

/-- Source `NeuralReactor::get_metrics`. -/
def get_metrics (s : NeuralReactor) : PerformanceMetrics :=
  s._metrics

/-- The input sources of the reactor. -/
inductive Source where
  | get_queue
  | cmd_queue
  | gpu_queue
  | db_pipe
deriving DecidableEq, Repr

/-- What one call of `run` leaves behind: the reactor, and the items it took
out of the input sources (the locals `msg`, `cmd`, `event` that are not null),
in the order the statements of `run` took them. -/
structure Tick where
  reactor : NeuralReactor
  taken : List (Source × Ptr)
deriving DecidableEq, Repr

/-- The entry of `taken` for one `get(no_wait)`. -/
def taken_from (src : Source) (item : Option Ptr) : List (Source × Ptr) :=
  match item with
  | none => []
  | some p => [(src, p)]

/-- Source `NeuralReactor::run`: one tick.  Three statements in a row: an
unconditional `get` on `_get_queue`, a `get` on `_cmd_queue` when it is not
empty, a `get` on `_gpu_queue` when the flag `_gpu_queue_empty` is not set.
No handler is called on what was taken. -/
def run (s : NeuralReactor) : Tick :=
  let msg := queue_get s._get_queue
  let s1 : NeuralReactor := { s with _get_queue := msg.2 }
  let cmd := queue_get s1._cmd_queue
  let s2 : NeuralReactor :=
    if !queue_empty s1._cmd_queue then { s1 with _cmd_queue := cmd.2 } else s1
  let cmd_taken :=
    if !queue_empty s1._cmd_queue then taken_from Source.cmd_queue cmd.1 else []
  let event := queue_get s2._gpu_queue
  let s3 : NeuralReactor :=
    if !s2._gpu_queue_empty then { s2 with _gpu_queue := event.2 } else s2
  let event_taken :=
    if !s2._gpu_queue_empty then taken_from Source.gpu_queue event.1 else []
  { reactor := s3, taken := taken_from Source.get_queue msg.1 ++ cmd_taken ++ event_taken }

/-- Handling a list of commands one after another with `handle_command`, as a
caller that hands each command of the list to the reactor in turn; an
exception that leaves `handle_command` ends the sequence. -/
def handle_commands (s : NeuralReactor) : List Command → CallResult
  | [] => CallResult.returned s
  | cmd :: rest =>
      match handle_command s cmd with
      | CallResult.returned s1 => handle_commands s1 rest
      | CallResult.propagated s1 => CallResult.propagated s1

/-- The number of items waiting in the four input sources. -/
def pending_items (a : ThreadActor) : Nat :=
  a._get_queue.length + a._cmd_queue.length + a._gpu_queue.length + a._db_pipe.length

/-! ## Fixtures used at concrete inputs -/

/-- A reactor with empty queues and tables and all counters at zero. -/
def idle_reactor : NeuralReactor :=
  { _get_queue := [], _cmd_queue := [], _gpu_queue := [], _gpu_queue_empty := true,
    _db_pipe := [], _session_map := [], _ndarray_map := [],
    _metrics := { total_operations := 0, successful_operations := 0, failed_operations := 0,
                  average_latency_ms := 0, gpu_memory_used := 0, active_sessions := 0 },
    handled_errors := [] }

/-- A command whose `execute` throws `std::runtime_error(what)`. -/
def throwing_command (what : String) : Command :=
  { _next := [], execute := fun a => Completion.threw a what }

/-- A command whose `execute` throws an object that is not a `std::exception`
(for instance `throw 42;`). -/
def foreign_throwing_command : Command :=
  { _next := [], execute := fun a => Completion.threw_other a }

/-- A command whose `execute` pushes the handle `this` onto the reactor's
command queue and returns, the way `FeedForward::execute` re-queues itself. -/
def requeueing_command (this : Ptr) : Command :=
  { _next := [],
    execute := fun a => Completion.returned { a with _cmd_queue := a._cmd_queue ++ [this] } }


/-! ## Basic facts about the handlers -/

/-- Below `LLONG_MAX` the increment of a `long long` is the successor. -/
theorem incr_long_long_eq (x : Int) (hlo : LLONG_MIN ≤ x) (hhi : x < LLONG_MAX) :
    incr_long_long x = x + 1 := by
  unfold incr_long_long LLONG_MIN LLONG_MAX at *
  have h : (x + 1 - -(2 ^ 63 : Int)) % 2 ^ 64 = x + 1 - -(2 ^ 63 : Int) :=
    Int.emod_eq_of_lt (by omega) (by omega)
  rw [h]; omega

/-- What `handle_error` does to the reactor record: it extends the history and
nothing else. -/
theorem handle_error_eq (s : NeuralReactor) (error : IntegrationError) :
    handle_error s error = { s with handled_errors := s.handled_errors ++ [error] } := by
  unfold handle_error
  split <;> rfl

/-- The result of `handle_command` when `execute` returns. -/
theorem handle_command_of_returned (s : NeuralReactor) (cmd : Command) (a : ThreadActor)
    (h : cmd.execute s.toThreadActor = Completion.returned a) :
    handle_command s cmd = CallResult.returned
      { s with
        toThreadActor := a
        _metrics := { s._metrics with
          successful_operations := incr_long_long s._metrics.successful_operations } } := by
  unfold handle_command
  rw [h]

/-- The result of `handle_command` when `execute` throws a `std::exception`. -/
theorem handle_command_of_threw (s : NeuralReactor) (cmd : Command) (a : ThreadActor)
    (what : String) (h : cmd.execute s.toThreadActor = Completion.threw a what) :
    handle_command s cmd = CallResult.returned
      { s with
        toThreadActor := a
        _metrics := { s._metrics with
          failed_operations := incr_long_long s._metrics.failed_operations }
        handled_errors := s.handled_errors ++
          [{ severity := ErrorSeverity.ERROR, message := what, source := "Command",
             error_code := -1 }] } := by
  unfold handle_command
  rw [h]
  simp only [handle_error_eq]

/-- The result of `handle_command` when `execute` throws something that is not
a `std::exception`. -/
theorem handle_command_of_threw_other (s : NeuralReactor) (cmd : Command) (a : ThreadActor)
    (h : cmd.execute s.toThreadActor = Completion.threw_other a) :
    handle_command s cmd = CallResult.propagated { s with toThreadActor := a } := by
  unfold handle_command
  rw [h]

/-- The reactor after `handle_gpu_event`. -/
theorem handle_gpu_event_eq (s : NeuralReactor) (event : Event GPUResult) :
    handle_gpu_event s event =
      { s with handled_errors := s.handled_errors ++
          (if event.getData.success then [] else [event.getData.error]) } := by
  unfold handle_gpu_event
  cases h : event.getData.success <;> simp [handle_error_eq, h]

/-- The reactor after `handle_database_event`. -/
theorem handle_database_event_eq (s : NeuralReactor) (event : Event DatabaseResult) :
    handle_database_event s event =
      { s with handled_errors := s.handled_errors ++
          (if event.getData.success then [] else [event.getData.error]) } := by
  unfold handle_database_event
  cases h : event.getData.success <;> simp [handle_error_eq, h]

/-- One tick leaves everything but the three polled queues as it was. -/
theorem run_frame (s : NeuralReactor) :
    (run s).reactor._metrics = s._metrics ∧
    (run s).reactor._session_map = s._session_map ∧
    (run s).reactor._ndarray_map = s._ndarray_map ∧
    (run s).reactor.handled_errors = s.handled_errors ∧
    (run s).reactor._db_pipe = s._db_pipe ∧
    (run s).reactor._gpu_queue_empty = s._gpu_queue_empty := by
  unfold run
  simp only []
  split <;> split <;> simp

/-- The three polled queues after one tick. -/
theorem run_queues (s : NeuralReactor) :
    (run s).reactor._get_queue = s._get_queue.tail ∧
    (run s).reactor._cmd_queue = s._cmd_queue.tail ∧
    (run s).reactor._gpu_queue =
      (if s._gpu_queue_empty then s._gpu_queue else s._gpu_queue.tail) := by
  unfold run queue_get queue_empty
  cases hg : s._get_queue <;> cases hc : s._cmd_queue <;> cases hq : s._gpu_queue <;>
    cases hf : s._gpu_queue_empty <;> simp [hg, hc, hq, hf]

/-- The items one tick took, in order. -/
theorem run_taken (s : NeuralReactor) :
    (run s).taken =
      taken_from Source.get_queue s._get_queue.head? ++
      taken_from Source.cmd_queue s._cmd_queue.head? ++
      (if s._gpu_queue_empty then [] else taken_from Source.gpu_queue s._gpu_queue.head?) := by
  unfold run queue_get queue_empty
  cases hg : s._get_queue <;> cases hc : s._cmd_queue <;> cases hq : s._gpu_queue <;>
    cases hf : s._gpu_queue_empty <;> simp [hg, hc, hq, hf, taken_from]

/-- Two commands in a row: when the first call returns, the second command is
handled on the state the first call left. -/
theorem handle_commands_pair (s : NeuralReactor) (cmd cmd2 : Command) (r : NeuralReactor)
    (h : handle_command s cmd = CallResult.returned r) :
    handle_commands s [cmd, cmd2] = handle_command r cmd2 := by
  simp only [handle_commands, h]
  cases handle_command r cmd2 <;> rfl

/-- One `handle_command` on a command that ends by returning or by a
`std::exception`: the call returns, exactly one of the two counters was
incremented, and the other metrics fields are as before. -/
theorem handle_command_tally (s : NeuralReactor) (cmd : Command)
    (hstd : ∀ a b, cmd.execute a ≠ Completion.threw_other b) :
    ∃ r, handle_command s cmd = CallResult.returned r ∧
      ((r._metrics.successful_operations = incr_long_long s._metrics.successful_operations ∧
          r._metrics.failed_operations = s._metrics.failed_operations) ∨
        (r._metrics.successful_operations = s._metrics.successful_operations ∧
          r._metrics.failed_operations = incr_long_long s._metrics.failed_operations)) ∧
      r._metrics.total_operations = s._metrics.total_operations ∧
      r._metrics.average_latency_ms = s._metrics.average_latency_ms ∧
      r._metrics.gpu_memory_used = s._metrics.gpu_memory_used ∧
      r._metrics.active_sessions = s._metrics.active_sessions := by
  cases hx : cmd.execute s.toThreadActor with
  | returned a =>
    exact ⟨_, handle_command_of_returned s cmd a hx, Or.inl ⟨rfl, rfl⟩, rfl, rfl, rfl, rfl⟩
  | threw a what =>
    exact ⟨_, handle_command_of_threw s cmd a what hx, Or.inr ⟨rfl, rfl⟩, rfl, rfl, rfl, rfl⟩
  | threw_other a =>
    exact absurd hx (hstd _ _)

/-- Counting over a list of commands that end by returning or by a
`std::exception`: `j` of them were counted as successes and `k` as failures,
`j + k` is the length of the list, and the other metrics fields are as before. -/
theorem handle_commands_tally (cmds : List Command) :
    ∀ s : NeuralReactor,
      (∀ cmd ∈ cmds, ∀ a b, cmd.execute a ≠ Completion.threw_other b) →
      LLONG_MIN ≤ s._metrics.successful_operations →
      s._metrics.successful_operations + cmds.length ≤ LLONG_MAX →
      LLONG_MIN ≤ s._metrics.failed_operations →
      s._metrics.failed_operations + cmds.length ≤ LLONG_MAX →
      ∃ (r : NeuralReactor) (j k : Nat),
        handle_commands s cmds = CallResult.returned r ∧
        j + k = cmds.length ∧
        r._metrics.successful_operations = s._metrics.successful_operations + j ∧
        r._metrics.failed_operations = s._metrics.failed_operations + k ∧
        r._metrics.total_operations = s._metrics.total_operations ∧
        r._metrics.average_latency_ms = s._metrics.average_latency_ms ∧
        r._metrics.gpu_memory_used = s._metrics.gpu_memory_used ∧
        r._metrics.active_sessions = s._metrics.active_sessions := by
  induction cmds with
  | nil =>
    intro s _ _ _ _ _
    exact ⟨s, 0, 0, rfl, rfl, by simp, by simp, rfl, rfl, rfl, rfl⟩
  | cons cmd rest ih =>
    intro s hstd hs_lo hs_hi hf_lo hf_hi
    simp only [List.length_cons, Nat.cast_add, Nat.cast_one] at hs_hi hf_hi
    have hrest : ∀ c ∈ rest, ∀ a b, c.execute a ≠ Completion.threw_other b :=
      fun c hc => hstd c (List.mem_cons_of_mem _ hc)
    obtain ⟨s1, h1, hcase, ht1, hl1, hg1, ha1⟩ :=
      handle_command_tally s cmd (hstd cmd (List.mem_cons_self _ _))
    have hstep : handle_commands s (cmd :: rest) = handle_commands s1 rest := by
      simp only [handle_commands, h1]
    rcases hcase with ⟨hs1, hf1⟩ | ⟨hs1, hf1⟩
    · rw [incr_long_long_eq _ hs_lo (by omega)] at hs1
      obtain ⟨r, j, k, hr, hjk, hsucc, hfail, ht, hl, hg, ha⟩ :=
        ih s1 hrest (by omega) (by omega) (by omega) (by omega)
      refine ⟨r, j + 1, k, hstep.trans hr, ?_, ?_, ?_, ht.trans ht1, hl.trans hl1,
        hg.trans hg1, ha.trans ha1⟩
      · simp only [List.length_cons]
        omega
      · rw [hsucc, hs1]
        push_cast
        omega
      · rw [hfail, hf1]
    · rw [incr_long_long_eq _ hf_lo (by omega)] at hf1
      obtain ⟨r, j, k, hr, hjk, hsucc, hfail, ht, hl, hg, ha⟩ :=
        ih s1 hrest (by omega) (by omega) (by omega) (by omega)
      refine ⟨r, j, k + 1, hstep.trans hr, ?_, ?_, ?_, ht.trans ht1, hl.trans hl1,
        hg.trans hg1, ha.trans ha1⟩
      · simp only [List.length_cons]
        omega
      · rw [hsucc, hs1]
      · rw [hfail, hf1]
        push_cast
        omega

/-! ## C1: the accounting equation -/

/-- C2, counterexample: the `execute` of the command throws an object that is
not a `std::exception`, so it fails, and `handle_command` on the all-zero
reactor leaves `failed_operations` at 0 instead of 1: the increment sits in
the `catch (const std::exception&)` block, which this exception does not
enter. -/
theorem handle_command_skips_count_on_foreign_exception :
    foreign_throwing_command.execute idle_reactor.toThreadActor =
      Completion.threw_other idle_reactor.toThreadActor ∧
    (handle_command idle_reactor foreign_throwing_command).reactor._metrics.failed_operations
      = 0 ∧
    (handle_command idle_reactor foreign_throwing_command).reactor._metrics.failed_operations
      ≠ idle_reactor._metrics.failed_operations + 1 ∧
    (handle_command idle_reactor foreign_throwing_command).reactor._metrics
      = idle_reactor._metrics := by
  refine ⟨rfl, ?_, ?_, ?_⟩ <;> decide

/-- C2, amended: for every reactor state and every command, `handle_command`
applies one `++` to `successful_operations` and leaves `failed_operations`
unchanged when `execute` returns, and applies one `++` to `failed_operations`
and leaves `successful_operations` unchanged when `execute` throws an
exception derived from `std::exception`; a `++` is an increase by exactly 1
when the counter is inside the `long long` range and below `LLONG_MAX`.  When
`execute` throws an object of any other type, the exception leaves
`handle_command` and no metrics field changes. -/
theorem handle_command_counts_caught_outcome (s : NeuralReactor) (cmd : Command) :
    (∀ a, cmd.execute s.toThreadActor = Completion.returned a →
      ∃ r, handle_command s cmd = CallResult.returned r ∧
        r._metrics.failed_operations = s._metrics.failed_operations ∧
        r._metrics.successful_operations =
          incr_long_long s._metrics.successful_operations ∧
        (LLONG_MIN ≤ s._metrics.successful_operations →
          s._metrics.successful_operations < LLONG_MAX →
          r._metrics.successful_operations = s._metrics.successful_operations + 1)) ∧
    (∀ a what, cmd.execute s.toThreadActor = Completion.threw a what →
      ∃ r, handle_command s cmd = CallResult.returned r ∧
        r._metrics.successful_operations = s._metrics.successful_operations ∧
        r._metrics.failed_operations = incr_long_long s._metrics.failed_operations ∧
        (LLONG_MIN ≤ s._metrics.failed_operations →
          s._metrics.failed_operations < LLONG_MAX →
          r._metrics.failed_operations = s._metrics.failed_operations + 1)) ∧
    (∀ a, cmd.execute s.toThreadActor = Completion.threw_other a →
      ∃ r, handle_command s cmd = CallResult.propagated r ∧ r._metrics = s._metrics) := by
  refine ⟨?_, ?_, ?_⟩
  · intro a hx
    exact ⟨_, handle_command_of_returned s cmd a hx, rfl, rfl,
      fun hlo hhi => incr_long_long_eq _ hlo hhi⟩
  · intro a what hx
    exact ⟨_, handle_command_of_threw s cmd a what hx, rfl, rfl,
      fun hlo hhi => incr_long_long_eq _ hlo hhi⟩
  · intro a hx
    exact ⟨_, handle_command_of_threw_other s cmd a hx, rfl⟩

/-- C2, witness: on the all-zero reactor a command that throws
`std::runtime_error` ends with `failed_operations = 1` and
`successful_operations = 0`, and `WeightUpdate` ends with
`successful_operations = 1` and `failed_operations = 0`. -/
theorem handle_command_counts_caught_outcome_witness :
    (∃ r, handle_command idle_reactor (throwing_command "bad shape") = CallResult.returned r ∧
      r._metrics.successful_operations = 0 ∧ r._metrics.failed_operations = 0 + 1) ∧
    (∃ r, handle_command idle_reactor (WeightUpdate []) = CallResult.returned r ∧
      r._metrics.failed_operations = 0 ∧ r._metrics.successful_operations = 0 + 1) := by
  constructor
  · obtain ⟨r, hr, hs, _, hf⟩ :=
      (handle_command_counts_caught_outcome idle_reactor (throwing_command "bad shape")).2.1
        idle_reactor.toThreadActor "bad shape" rfl
    exact ⟨r, hr, hs, hf (by decide) (by decide)⟩
  · obtain ⟨r, hr, hf, _, hs⟩ :=
      (handle_command_counts_caught_outcome idle_reactor (WeightUpdate [])).1
        idle_reactor.toThreadActor rfl
    exact ⟨r, hr, hf, hs (by decide) (by decide)⟩

/-! ## C3: the error handed to `handle_error` -/

/-- C3: when `execute` throws a `std::exception` with message `what`,
`handle_command` calls `handle_error` once, with the error
`(ERROR, what, "Command", -1)`: the history of `handle_error` calls grows by
exactly that entry.  When `execute` returns, `handle_command` does not call
`handle_error`: the history is unchanged. -/
theorem handle_command_reports_failure_once (s : NeuralReactor) (cmd : Command) :
    (∀ a what, cmd.execute s.toThreadActor = Completion.threw a what →
      ∃ r, handle_command s cmd = CallResult.returned r ∧
        r.handled_errors = s.handled_errors ++
          [{ severity := ErrorSeverity.ERROR, message := what, source := "Command",
             error_code := -1 }]) ∧
    (∀ a, cmd.execute s.toThreadActor = Completion.returned a →
      ∃ r, handle_command s cmd = CallResult.returned r ∧
        r.handled_errors = s.handled_errors) := by
  constructor
  · intro a what hx
    exact ⟨_, handle_command_of_threw s cmd a what hx, rfl⟩
  · intro a hx
    exact ⟨_, handle_command_of_returned s cmd a hx, rfl⟩

/-- C3, witness: a command that throws with message "bad shape" on the
all-zero reactor leaves the one-entry history `(ERROR, "bad shape", "Command", -1)`. -/
theorem handle_command_reports_failure_once_witness :
    ∃ r, handle_command idle_reactor (throwing_command "bad shape") = CallResult.returned r ∧
      r.handled_errors = idle_reactor.handled_errors ++
        [{ severity := ErrorSeverity.ERROR, message := "bad shape", source := "Command",
           error_code := -1 }] :=
  (handle_command_reports_failure_once idle_reactor (throwing_command "bad shape")).1
    idle_reactor.toThreadActor "bad shape" rfl

/-! ## C4: the failure boundary of `handle_command` -/

/-- C4, counterexample: a command whose `execute` throws an object that is not
a `std::exception` is not caught by `catch (const std::exception&)`: the
exception leaves `handle_command`, neither counter moves, no error is handed
to `handle_error`, and a `WeightUpdate` queued behind it is not handled. -/
theorem handle_command_lets_foreign_exception_through :
    handle_command idle_reactor foreign_throwing_command =
      CallResult.propagated idle_reactor ∧
    handle_commands idle_reactor [foreign_throwing_command, WeightUpdate []] =
      CallResult.propagated idle_reactor := by
  decide

/-- C4, amended: when `execute` returns or throws an exception derived from
`std::exception`, `handle_command` returns normally; after a command that
threw such an exception, the next command handled is executed on the state the
first one left and counted (one failure from the first, one success from the
second when it returns).  When `execute` throws an object of any other type,
the exception leaves `handle_command` towards the caller. -/
theorem handle_command_isolates_std_failures (s : NeuralReactor) (cmd : Command) :
    (∀ a, cmd.execute s.toThreadActor = Completion.returned a →
      ∃ r, handle_command s cmd = CallResult.returned r ∧ r.toThreadActor = a) ∧
    (∀ a what, cmd.execute s.toThreadActor = Completion.threw a what →
      (∃ r, handle_command s cmd = CallResult.returned r ∧ r.toThreadActor = a) ∧
      (∀ cmd2 a2, cmd2.execute a = Completion.returned a2 →
        ∃ r2, handle_commands s [cmd, cmd2] = CallResult.returned r2 ∧
          r2.toThreadActor = a2 ∧
          r2._metrics.failed_operations = incr_long_long s._metrics.failed_operations ∧
          r2._metrics.successful_operations =
            incr_long_long s._metrics.successful_operations)) ∧
    (∀ a, cmd.execute s.toThreadActor = Completion.threw_other a →
      handle_command s cmd = CallResult.propagated { s with toThreadActor := a }) := by
  refine ⟨?_, ?_, ?_⟩
  · intro a hx
    exact ⟨_, handle_command_of_returned s cmd a hx, rfl⟩
  · intro a what hx
    refine ⟨⟨_, handle_command_of_threw s cmd a what hx, rfl⟩, ?_⟩
    intro cmd2 a2 hx2
    rw [handle_commands_pair s cmd cmd2 _ (handle_command_of_threw s cmd a what hx)]
    exact ⟨_, handle_command_of_returned _ cmd2 a2 hx2, rfl, rfl, rfl⟩
  · intro a hx
    exact handle_command_of_threw_other s cmd a hx

/-- C4, witness: on the all-zero reactor a command that throws
`std::runtime_error` followed by a command that re-queues itself: both are
handled, the second one has run (its handle 70 is in `_cmd_queue`) and the
counters read one failure and one success. -/
theorem handle_command_isolates_std_failures_witness :
    ∃ r2, handle_commands idle_reactor [throwing_command "bad shape", requeueing_command 70] =
        CallResult.returned r2 ∧
      r2.toThreadActor = { idle_reactor.toThreadActor with _cmd_queue := [70] } ∧
      r2._metrics.failed_operations = incr_long_long 0 ∧
      r2._metrics.successful_operations = incr_long_long 0 :=
  ((handle_command_isolates_std_failures idle_reactor (throwing_command "bad shape")).2.1
    idle_reactor.toThreadActor "bad shape" rfl).2
    (requeueing_command 70) { idle_reactor.toThreadActor with _cmd_queue := [70] } rfl

/-! ## C5: a failed GPU completion -/

/-- C5, the code at the failing input: a GPU completion for operation 42 with
`success = false` arrives at the all-zero reactor.  `handle_gpu_event` hands
the embedded error to `handle_error` and changes no counter:
`failed_operations` is still 0, not 1. -/
theorem handle_gpu_event_failure_not_counted :
    (handle_gpu_event idle_reactor
      { getData := { operation_id := 42, success := false,
                     error := { severity := ErrorSeverity.ERROR, message := "kernel fault",
                                source := "GPU", error_code := 42 } } })._metrics.failed_operations
      = 0 ∧
    (handle_gpu_event idle_reactor
      { getData := { operation_id := 42, success := false,
                     error := { severity := ErrorSeverity.ERROR, message := "kernel fault",
                                source := "GPU", error_code := 42 } } })._metrics
      = idle_reactor._metrics ∧
    (handle_gpu_event idle_reactor
      { getData := { operation_id := 42, success := false,
                     error := { severity := ErrorSeverity.ERROR, message := "kernel fault",
                                source := "GPU", error_code := 42 } } }).handled_errors
      = [{ severity := ErrorSeverity.ERROR, message := "kernel fault", source := "GPU",
           error_code := 42 }] := by
  decide

/-! ## C6: results that match no pending request -/

/-- C6, counterexample: a database result for `query_id = 999` arrives at the
all-zero reactor, which has submitted nothing.  With `success = false` and an
embedded CRITICAL error, the error handed to `handle_error` is that CRITICAL
error, not a WARNING; with `success = true` nothing is handed to
`handle_error` at all. -/
theorem unmatched_result_reported_with_embedded_severity :
    (handle_database_event idle_reactor
      { getData := { query_id := 999, success := false, rows_affected := 0,
                     error := { severity := ErrorSeverity.CRITICAL, message := "disk failure",
                                source := "Database", error_code := 5 } } }).handled_errors
      = [{ severity := ErrorSeverity.CRITICAL, message := "disk failure",
           source := "Database", error_code := 5 }] ∧
    ErrorSeverity.CRITICAL ≠ ErrorSeverity.WARNING ∧
    (handle_database_event idle_reactor
      { getData := { query_id := 999, success := true, rows_affected := 0,
                     error := { severity := ErrorSeverity.WARNING, message := "",
                                source := "Database", error_code := 0 } } }).handled_errors
      = [] := by
  decide

/-- C6, amended: for every reactor state and every GPU or database result
whose id matches no pending request, whatever its success flag and embedded
error, `handle_gpu_event` and `handle_database_event` leave every field of the
metrics and the session map unchanged; what they hand to `handle_error` is the
error embedded in the result, with the severity that error carries, when
`success` is false, and nothing when `success` is true.  The reactor keeps no
table of pending requests and the handlers do not read the id, so the
statement is proved for every result. -/
theorem result_handlers_frame (s : NeuralReactor) (gpu : Event GPUResult)
    (db : Event DatabaseResult) :
    (handle_gpu_event s gpu)._metrics = s._metrics ∧
    (handle_gpu_event s gpu)._session_map = s._session_map ∧
    (handle_gpu_event s gpu).handled_errors =
      s.handled_errors ++ (if gpu.getData.success then [] else [gpu.getData.error]) ∧
    (handle_database_event s db)._metrics = s._metrics ∧
    (handle_database_event s db)._session_map = s._session_map ∧
    (handle_database_event s db).handled_errors =
      s.handled_errors ++ (if db.getData.success then [] else [db.getData.error]) := by
  rw [handle_gpu_event_eq, handle_database_event_eq]
  exact ⟨rfl, rfl, rfl, rfl, rfl, rfl⟩

/-! ## C7: two non-empty queues at the start of a tick -/

/-- C7, counterexample: a tick that starts with one item in `_get_queue` and
one in `_cmd_queue` takes both, first the one of `_get_queue` and then the one
of `_cmd_queue`; whichever of the two is read as the external queue, it does
not stay untouched. -/
theorem run_takes_from_both_queues :
    (run { idle_reactor with _get_queue := [11], _cmd_queue := [22] }).taken =
      [(Source.get_queue, 11), (Source.cmd_queue, 22)] ∧
    (run { idle_reactor with _get_queue := [11], _cmd_queue := [22] }).reactor._get_queue
      = [] ∧
    (run { idle_reactor with _get_queue := [11], _cmd_queue := [22] }).reactor._cmd_queue
      = [] := by
  decide

/-- C7, amended: when `_get_queue` and `_cmd_queue` are both non-empty at the
start of a tick, the tick takes the head of `_get_queue` first and then, in
the same tick, the head of `_cmd_queue`; both queues lose their head, and
neither item is passed to a handler: metrics, session map and the history of
`handle_error` calls are as before. -/
theorem run_with_both_queues_nonempty (s : NeuralReactor) (m c : Ptr) (ms cs : List Ptr)
    (hg : s._get_queue = m :: ms) (hc : s._cmd_queue = c :: cs) :
    (run s).taken.take 2 = [(Source.get_queue, m), (Source.cmd_queue, c)] ∧
    (run s).reactor._get_queue = ms ∧
    (run s).reactor._cmd_queue = cs ∧
    (run s).reactor._metrics = s._metrics ∧
    (run s).reactor._session_map = s._session_map ∧
    (run s).reactor.handled_errors = s.handled_errors := by
  have hq := run_queues s
  have hf := run_frame s
  refine ⟨?_, ?_, ?_, hf.1, hf.2.1, hf.2.2.2.1⟩
  · rw [run_taken, hg, hc]
    simp [taken_from]
  · rw [hq.1, hg]
    rfl
  · rw [hq.2.1, hc]
    rfl

/-- C7, witness: the amended statement at a reactor with `_get_queue = [11, 12]`
and `_cmd_queue = [22]`. -/
theorem run_with_both_queues_nonempty_witness :
    (run { idle_reactor with _get_queue := [11, 12], _cmd_queue := [22] }).taken.take 2 =
      [(Source.get_queue, 11), (Source.cmd_queue, 22)] ∧
    (run { idle_reactor with _get_queue := [11, 12], _cmd_queue := [22] }).reactor._get_queue
      = [12] ∧
    (run { idle_reactor with _get_queue := [11, 12], _cmd_queue := [22] }).reactor._cmd_queue
      = [] :=
  ⟨(run_with_both_queues_nonempty { idle_reactor with _get_queue := [11, 12], _cmd_queue := [22] }
      11 22 [12] [] rfl rfl).1,
   (run_with_both_queues_nonempty { idle_reactor with _get_queue := [11, 12], _cmd_queue := [22] }
      11 22 [12] [] rfl rfl).2.1,
   (run_with_both_queues_nonempty { idle_reactor with _get_queue := [11, 12], _cmd_queue := [22] }
      11 22 [12] [] rfl rfl).2.2.1⟩

/-! ## C8: a CRITICAL error and the session it belongs to -/

/-- C8, the code at the failing input: session 7 is Active on the reactor (the
one entry of `_session_map`).  `handle_error` with a CRITICAL error runs
through the empty `if (error.severity == CRITICAL)` block: the session map is
as before, the state of session 7 is still the code of Active and not the
code of Aborted, and a command handled afterwards is executed (its handle 70
is pushed onto `_cmd_queue`) and counted as a success. -/
theorem critical_error_leaves_session_running :
    (handle_error
        { idle_reactor with _session_map := [(7, { _state := SessionStatus.Active.code })] }
        { severity := ErrorSeverity.CRITICAL, message := "gradient overflow",
          source := "Command", error_code := 7 })._session_map
      = [(7, { _state := SessionStatus.Active.code })] ∧
    SessionState.getState { _state := SessionStatus.Active.code } ≠
      SessionStatus.Aborted.code ∧
    handle_command
      (handle_error
        { idle_reactor with _session_map := [(7, { _state := SessionStatus.Active.code })] }
        { severity := ErrorSeverity.CRITICAL, message := "gradient overflow",
          source := "Command", error_code := 7 })
      (requeueing_command 70)
      = CallResult.returned
        { idle_reactor with
          _cmd_queue := [70]
          _session_map := [(7, { _state := SessionStatus.Active.code })]
          _metrics := { idle_reactor._metrics with successful_operations := 1 }
          handled_errors := [{ severity := ErrorSeverity.CRITICAL,
                               message := "gradient overflow", source := "Command",
                               error_code := 7 }] } := by
  decide

/-! ## C9: how much one tick takes -/

/-- C9, counterexample: a tick that starts with one item in each of the four
sources (and the flag `_gpu_queue_empty` clear) takes three items, one from
`_get_queue`, one from `_cmd_queue` and one from `_gpu_queue`: `_cmd_queue` and
`_gpu_queue` are polled although `_get_queue` was not empty, and four waiting
items become one. -/
theorem run_takes_three_items :
    (run { idle_reactor with _get_queue := [11], _cmd_queue := [22], _gpu_queue := [33],
                             _gpu_queue_empty := false, _db_pipe := [44] }).taken =
      [(Source.get_queue, 11), (Source.cmd_queue, 22), (Source.gpu_queue, 33)] ∧
    pending_items
      ({ idle_reactor with _get_queue := [11], _cmd_queue := [22], _gpu_queue := [33],
                           _gpu_queue_empty := false, _db_pipe := [44] } :
        NeuralReactor).toThreadActor = 4 ∧
    pending_items
      (run { idle_reactor with _get_queue := [11], _cmd_queue := [22], _gpu_queue := [33],
                               _gpu_queue_empty := false, _db_pipe := [44] }).reactor.toThreadActor
      = 1 := by
  decide

/-- C9, amended: one tick removes at most one item from each of `_get_queue`,
`_cmd_queue` and `_gpu_queue`, so at most three in total.  `_get_queue` is
always polled, `_cmd_queue` loses its head whenever it is non-empty and
`_gpu_queue` whenever the flag `_gpu_queue_empty` is clear, whatever the other
sources hold.  The database pipe is never read. -/
theorem run_polls_each_queue_on_its_own (s : NeuralReactor) :
    (run s).reactor._get_queue = s._get_queue.tail ∧
    (run s).reactor._cmd_queue = s._cmd_queue.tail ∧
    (run s).reactor._gpu_queue =
      (if s._gpu_queue_empty then s._gpu_queue else s._gpu_queue.tail) ∧
    (run s).reactor._db_pipe = s._db_pipe ∧
    (run s).taken.length ≤ 3 ∧
    pending_items s.toThreadActor =
      pending_items (run s).reactor.toThreadActor + (run s).taken.length := by
  have hq := run_queues s
  have hf := run_frame s
  refine ⟨hq.1, hq.2.1, hq.2.2, hf.2.2.2.2.1, ?_, ?_⟩
  · rw [run_taken]
    cases s._get_queue <;> cases s._cmd_queue <;> cases s._gpu_queue <;>
      cases s._gpu_queue_empty <;> simp [taken_from]
  · unfold pending_items
    rw [run_taken, hq.1, hq.2.1, hq.2.2, hf.2.2.2.2.1]
    cases s._get_queue <;> cases s._cmd_queue <;> cases s._gpu_queue <;>
      cases s._gpu_queue_empty <;> simp [taken_from] <;> omega

/-! ## C10: a sequence of commands -/

/-- C10, counterexample: three commands on the all-zero reactor, the second of
which throws an object that is not a `std::exception`.  The first is counted,
the second is not counted at all and the third is never handled: the sequence
ends by the exception with `successful_operations + failed_operations = 1`,
not 3. -/
theorem handle_commands_drops_after_foreign_exception :
    handle_commands idle_reactor
        [WeightUpdate [], foreign_throwing_command, BackPropagation []] =
      CallResult.propagated
        { idle_reactor with
          _metrics := { idle_reactor._metrics with successful_operations := 1 } } ∧
    (handle_commands idle_reactor
        [WeightUpdate [], foreign_throwing_command, BackPropagation []]).reactor._metrics.successful_operations +
      (handle_commands idle_reactor
        [WeightUpdate [], foreign_throwing_command, BackPropagation []]).reactor._metrics.failed_operations
      ≠ idle_reactor._metrics.successful_operations +
          idle_reactor._metrics.failed_operations + 3 := by
  constructor <;> decide

/-- C10, amended: for a list of `n` commands, each of which ends by returning
or by an exception derived from `std::exception`, handled one after another
from a state whose two counters can take `n` more increments without leaving
the `long long` range, `handle_commands` returns,
`successful_operations + failed_operations` has grown by exactly `n`, and
`total_operations`, `average_latency_ms`, `gpu_memory_used` and
`active_sessions` have their initial values.  A command whose `execute` throws
an object of any other type is not counted and ends the sequence: the
commands behind it are not handled and no metrics field changes. -/
theorem handle_commands_counts_each_caught_once (s : NeuralReactor) (cmds : List Command) :
    ((∀ cmd ∈ cmds, ∀ a b, cmd.execute a ≠ Completion.threw_other b) →
      LLONG_MIN ≤ s._metrics.successful_operations →
      s._metrics.successful_operations + cmds.length ≤ LLONG_MAX →
      LLONG_MIN ≤ s._metrics.failed_operations →
      s._metrics.failed_operations + cmds.length ≤ LLONG_MAX →
      ∃ r, handle_commands s cmds = CallResult.returned r ∧
        r._metrics.successful_operations + r._metrics.failed_operations =
          s._metrics.successful_operations + s._metrics.failed_operations + cmds.length ∧
        r._metrics.total_operations = s._metrics.total_operations ∧
        r._metrics.average_latency_ms = s._metrics.average_latency_ms ∧
        r._metrics.gpu_memory_used = s._metrics.gpu_memory_used ∧
        r._metrics.active_sessions = s._metrics.active_sessions) ∧
    (∀ cmd a, cmd.execute s.toThreadActor = Completion.threw_other a →
      handle_commands s (cmd :: cmds) = CallResult.propagated { s with toThreadActor := a }) := by
  constructor
  · intro hstd hs_lo hs_hi hf_lo hf_hi
    obtain ⟨r, j, k, hr, hjk, hsucc, hfail, ht, hl, hg, ha⟩ :=
      handle_commands_tally cmds s hstd hs_lo hs_hi hf_lo hf_hi
    refine ⟨r, hr, ?_, ht, hl, hg, ha⟩
    rw [hsucc, hfail, ← hjk]
    push_cast
    omega
  · intro cmd a hx
    simp only [handle_commands, handle_command_of_threw_other s cmd a hx]

/-- C10, witness: three commands on the all-zero reactor, the second of which
throws `std::runtime_error`: the two counters add up to 3 and
`total_operations` is still 0. -/
theorem handle_commands_counts_each_caught_once_witness :
    ∃ r, handle_commands idle_reactor
        [WeightUpdate [], throwing_command "bad shape", BackPropagation []] =
        CallResult.returned r ∧
      r._metrics.successful_operations + r._metrics.failed_operations =
        idle_reactor._metrics.successful_operations +
          idle_reactor._metrics.failed_operations +
          [WeightUpdate [], throwing_command "bad shape", BackPropagation []].length ∧
      r._metrics.total_operations = idle_reactor._metrics.total_operations ∧
      r._metrics.average_latency_ms = idle_reactor._metrics.average_latency_ms ∧
      r._metrics.gpu_memory_used = idle_reactor._metrics.gpu_memory_used ∧
      r._metrics.active_sessions = idle_reactor._metrics.active_sessions :=
  (handle_commands_counts_each_caught_once idle_reactor
    [WeightUpdate [], throwing_command "bad shape", BackPropagation []]).1
    (by
      intro cmd hmem a b
      simp only [List.mem_cons, List.mem_singleton, List.not_mem_nil, or_false] at hmem
      rcases hmem with rfl | rfl | rfl <;>
        simp [WeightUpdate, throwing_command, BackPropagation])
    (by decide) (by decide) (by decide) (by decide)

end Hypermind
